import Mathlib

/-!
# Control API of the OSDK core (`osdk-core/api/src/dji_control.cpp`)

A shallow embedding of `DJI::OSDK::Control`: the discrete flight commands in
their blocking and callback forms, the setpoint entry points, the two frame
constructors and the default acknowledgment callback.

The file under study only includes `dji_control.hpp` and `dji_vehicle.hpp`.
What those headers declare and this file merely uses (enumerator values,
`Protocol::PackageMin`, `sizeof` of the packed frames, the global `encrypt`)
is collected in the structure `Header` and is a parameter of every
definition.  The three collaborator calls made through `vehicle`
(`callbackIdIndex`, `protocolLayer->send`, `waitForACK`) are collected in the
structure `Collaborators`; every call on them, and every store into one of the
two slot tables of the vehicle, is recorded, in order, in the field `calls` of
the vehicle state.

C++ overloads are told apart by a suffix naming their parameters:
`action_callback` / `action_timeout`, `armMotors_callback` /
`armMotors_timeout`, and so on; `flightCtrl` takes a `CtrlData`,
`flightCtrl_adv` an `AdvancedCtrlData`.
-/

namespace DJI.OSDK

/-! ## Values declared in the headers -/

/-- Constants that `dji_control.cpp` reads from its headers. -/
structure Header where
  /-- The opcode `FlightCommand::startMotor`. -/
  startMotor : Int
  /-- The opcode `FlightCommand::stopMotor`. -/
  stopMotor : Int
  /-- The opcode `FlightCommand::takeOff`. -/
  takeOff : Int
  /-- The opcode `FlightCommand::goHome`. -/
  goHome : Int
  /-- The opcode `FlightCommand::landing`. -/
  landing : Int
  VERTICAL_VELOCITY : Nat
  VERTICAL_POSITION : Nat
  HORIZONTAL_ANGLE : Nat
  HORIZONTAL_VELOCITY : Nat
  HORIZONTAL_POSITION : Nat
  HORIZONTAL_ANGULAR_RATE : Nat
  YAW_ANGLE : Nat
  YAW_RATE : Nat
  HORIZONTAL_GROUND : Nat
  HORIZONTAL_BODY : Nat
  STABLE_ENABLE : Nat
  /-- The value of the global `DJI::OSDK::encrypt`. -/
  encrypt : Int
  /-- The value of `sizeof(CtrlData)`. -/
  sizeofCtrlData : Nat
  /-- The value of `sizeof(AdvancedCtrlData)`. -/
  sizeofAdvancedCtrlData : Nat
  /-- The constant `Protocol::PackageMin`. -/
  PackageMin : Nat
  /-- Width in bits of the unsigned type in which
  `len - Protocol::PackageMin <= sizeof(uint16_t)` is compared. -/
  wordBits : Nat
  deriving DecidableEq, Repr

/-- The control-mode enumerators with the values they have in the OSDK header
`dji_control.hpp` (vertical 0x00/0x10, horizontal 0x00/0x40/0x80/0xC0, yaw
0x00/0x08, coordinate 0x00/0x02, stable 0x01); with them the flag numbers noted
in the code (145, 72, 18, 218) come out.  The remaining fields are sample
values: one-byte opcodes, packed frame sizes 17 and 26, a 16-byte minimal
package and a 64-bit comparison. -/
def osdkHeader : Header where
  startMotor := 7
  stopMotor := 8
  takeOff := 1
  goHome := 6
  landing := 2
  VERTICAL_VELOCITY := 0x00
  VERTICAL_POSITION := 0x10
  HORIZONTAL_ANGLE := 0x00
  HORIZONTAL_VELOCITY := 0x40
  HORIZONTAL_POSITION := 0x80
  HORIZONTAL_ANGULAR_RATE := 0xC0
  YAW_ANGLE := 0x00
  YAW_RATE := 0x08
  HORIZONTAL_GROUND := 0x00
  HORIZONTAL_BODY := 0x02
  STABLE_ENABLE := 0x01
  encrypt := 0
  sizeofCtrlData := 17
  sizeofAdvancedCtrlData := 26
  PackageMin := 16
  wordBits := 64

/-- Conversion of an `int` to `uint8_t`: the value modulo 2^8. -/
def uint8 (n : Int) : Nat := (n % 256).toNat

/-- A `float32_t` channel value, kept as its binary32 bit pattern.  The control
layer copies these values and never computes with them. -/
structure float32_t where
  bits : Nat
  deriving DecidableEq, Repr

/-- The `int` literal `0` converted to `float32_t`: positive zero. -/
def float32_t.zero : float32_t := ⟨0⟩

/-- The two command sets of `OpenProtocol::CMDSet::Control` used here. -/
inductive CMDSet where
  | task
  | control
  deriving DecidableEq, Repr

/-- A `VehicleCallBack` function pointer: null, the address of
`Control::actionCallback`, or the address of some other function. -/
inductive VehicleCallBack where
  | null
  | actionCallback
  | user (addr : Nat)
  deriving DecidableEq, Repr

/-- A `UserData` pointer (`void*`). -/
inductive UserData where
  | NULL
  | ptr (addr : Nat)
  deriving DecidableEq, Repr

/-! ## Frames -/

/-- The basic setpoint frame `Control::CtrlData`. -/
structure CtrlData where
  flag : Nat
  x : float32_t
  y : float32_t
  z : float32_t
  yaw : float32_t
  deriving DecidableEq, Repr

/-- The advanced setpoint frame `Control::AdvancedCtrlData`. -/
structure AdvancedCtrlData where
  flag : Nat
  x : float32_t
  y : float32_t
  z : float32_t
  yaw : float32_t
  xFeedforward : float32_t
  yFeedforward : float32_t
  advFlag : Nat
  deriving DecidableEq, Repr

/-- The constructor `CtrlData::CtrlData(in_flag, in_x, in_y, in_z, in_yaw)`. -/
def CtrlData.ctor (in_flag : Nat) (in_x in_y in_z in_yaw : float32_t) : CtrlData where
  flag := in_flag
  x := in_x
  y := in_y
  z := in_z
  yaw := in_yaw

/-- The constructor `AdvancedCtrlData::AdvancedCtrlData(in_flag, in_x, in_y,
in_z, in_yaw, x_forw, y_forw)`. -/
def AdvancedCtrlData.ctor (in_flag : Nat) (in_x in_y in_z in_yaw x_forw y_forw : float32_t) :
    AdvancedCtrlData where
  flag := in_flag
  x := in_x
  y := in_y
  z := in_z
  yaw := in_yaw
  xFeedforward := x_forw
  yFeedforward := y_forw
  advFlag := 0x01

/-! ## Acknowledgments -/

/-- The fields of `recvInfo` (`ACK::Entry`) that this file reads. -/
structure Entry where
  len : Nat
  seqNumber : Nat
  deriving DecidableEq, Repr

/-- The acknowledgment `ACK::ErrorCode`. -/
structure ErrorCode where
  info : Entry
  data : Nat
  deriving DecidableEq, Repr

/-- The member of `recvData` that this file reads. -/
structure RecvData where
  ack : Nat
  deriving DecidableEq, Repr

/-- An inbound frame `RecvContainer`. -/
structure RecvContainer where
  recvInfo : Entry
  recvData : RecvData
  deriving DecidableEq, Repr

/-! ## Collaborator calls -/

/-- What the `void*` argument of `send` points at. -/
inductive Payload where
  | byte (data : Nat)
  | ctrlData (data : CtrlData)
  | advancedCtrlData (data : AdvancedCtrlData)
  deriving DecidableEq, Repr

/-- The nine arguments of `protocolLayer->send`, in order. -/
structure SendArgs where
  session : Int
  encrypt : Int
  cmd : CMDSet
  data : Payload
  len : Nat
  timeout : Int
  retry : Int
  isAsync : Bool
  cbIndex : Int
  deriving DecidableEq, Repr

/-- A step made through `vehicle`: one of the three collaborator calls, or a
store into one of its two slot tables. -/
inductive Call where
  | callbackIdIndex
  | send (args : SendArgs)
  | waitForACK (cmd : CMDSet) (timeout : Int)
  /-- The store `vehicle->nbCallbackFunctions[cbIndex] = f`. -/
  | storeCallback (cbIndex : Int) (f : VehicleCallBack)
  /-- The store `vehicle->nbUserData[cbIndex] = u`. -/
  | storeUserData (cbIndex : Int) (u : UserData)
  deriving DecidableEq, Repr

/-- The collaborators reached through `vehicle`, acting on a state of their
own.  `waitForACK` gives the `ACK::ErrorCode` that the returned pointer points
at. -/
structure Collaborators (σ : Type) where
  callbackIdIndex : σ → Int × σ
  send : SendArgs → σ → σ
  waitForACK : CMDSet → Int → σ → ErrorCode × σ

/-- The part of `Vehicle` that `Control` touches: the two tables indexed by
slot, the collaborators' state and the record, oldest first, of the calls made
on the collaborators and of the stores made into the tables. -/
structure Vehicle (σ : Type) where
  nbCallbackFunctions : List VehicleCallBack
  nbUserData : List UserData
  collab : σ
  calls : List Call

namespace Vehicle

variable {σ : Type}

/-- The call `vehicle->callbackIdIndex()`. -/
def callbackIdIndex (E : Collaborators σ) (v : Vehicle σ) : Int × Vehicle σ :=
  ((E.callbackIdIndex v.collab).1,
    { v with collab := (E.callbackIdIndex v.collab).2, calls := v.calls ++ [Call.callbackIdIndex] })

/-- The call `vehicle->protocolLayer->send(...)`. -/
def send (E : Collaborators σ) (args : SendArgs) (v : Vehicle σ) : Vehicle σ :=
  { v with collab := E.send args v.collab, calls := v.calls ++ [Call.send args] }

/-- The call `vehicle->waitForACK(cmd, timeout)`, dereferenced. -/
def waitForACK (E : Collaborators σ) (cmd : CMDSet) (timeout : Int) (v : Vehicle σ) :
    ErrorCode × Vehicle σ :=
  ((E.waitForACK cmd timeout v.collab).1,
    { v with collab := (E.waitForACK cmd timeout v.collab).2,
             calls := v.calls ++ [Call.waitForACK cmd timeout] })

/-- The store `table[i] = a` into a fixed-size table; a store outside the table
is undefined and gives `none`. -/
def store {α : Type} (table : List α) (i : Int) (a : α) : Option (List α) :=
  if 0 ≤ i ∧ i.toNat < table.length then some (table.set i.toNat a) else none

/-- The assignment `vehicle->nbCallbackFunctions[cbIndex] = f`. -/
def setCallback (cbIndex : Int) (f : VehicleCallBack) (v : Vehicle σ) : Option (Vehicle σ) :=
  (store v.nbCallbackFunctions cbIndex f).map fun t =>
    { v with nbCallbackFunctions := t, calls := v.calls ++ [Call.storeCallback cbIndex f] }

/-- The assignment `vehicle->nbUserData[cbIndex] = u`. -/
def setUserData (cbIndex : Int) (u : UserData) (v : Vehicle σ) : Option (Vehicle σ) :=
  (store v.nbUserData cbIndex u).map fun t =>
    { v with nbUserData := t, calls := v.calls ++ [Call.storeUserData cbIndex u] }

/-- Modelled from the spec: `resolve(slotIndex) -> (callback, userContext)` of
the correlation table, the read the transport makes when a response tagged with
the slot arrives; the receive path is not part of this file. -/
def resolve (slotIndex : Nat) (v : Vehicle σ) : Option (VehicleCallBack × UserData) :=
  match v.nbCallbackFunctions[slotIndex]?, v.nbUserData[slotIndex]? with
  | some f, some u => some (f, u)
  | _, _ => none

end Vehicle

/-! ## The class `Control` -/

namespace Control

variable {σ : Type}

/-- The overload `Control::action(const int cmd, VehicleCallBack callback,
UserData userData)`.  The result is `none` when a table store is outside the
table. -/
def action_callback (E : Collaborators σ) (H : Header) (cmd : Int)
    (callback : VehicleCallBack) (userData : UserData) (v : Vehicle σ) : Option (Vehicle σ) :=
  let data := uint8 cmd
  let (cbIndex, v1) := v.callbackIdIndex E
  let bound :=
    if callback ≠ VehicleCallBack.null then
      (v1.setCallback cbIndex callback).bind (Vehicle.setUserData cbIndex userData)
    else
      (v1.setCallback cbIndex VehicleCallBack.actionCallback).bind
        (Vehicle.setUserData cbIndex UserData.NULL)
  bound.map (Vehicle.send E
    { session := 2, encrypt := H.encrypt, cmd := CMDSet.task, data := Payload.byte data,
      len := 1, timeout := 500, retry := 2, isAsync := true, cbIndex := cbIndex })

/-- The overload `Control::action(const int cmd, int timeout)`. -/
def action_timeout (E : Collaborators σ) (H : Header) (cmd : Int) (timeout : Int)
    (v : Vehicle σ) : ErrorCode × Vehicle σ :=
  let data := uint8 cmd
  let v1 := v.send E
    { session := 2, encrypt := H.encrypt, cmd := CMDSet.task, data := Payload.byte data,
      len := 1, timeout := 500, retry := 2, isAsync := false, cbIndex := 2 }
  let (ack, v2) := v1.waitForACK E CMDSet.task timeout
  (ack, v2)

/-- The overload `Control::armMotors(int wait_timeout)`. -/
def armMotors_timeout (E : Collaborators σ) (H : Header) (wait_timeout : Int) (v : Vehicle σ) :
    ErrorCode × Vehicle σ :=
  action_timeout E H H.startMotor wait_timeout v

/-- The overload `Control::armMotors(VehicleCallBack callback, UserData userData)`. -/
def armMotors_callback (E : Collaborators σ) (H : Header) (callback : VehicleCallBack)
    (userData : UserData) (v : Vehicle σ) : Option (Vehicle σ) :=
  action_callback E H H.startMotor callback userData v

/-- The overload `Control::disArmMotors(int wait_timeout)`. -/
def disArmMotors_timeout (E : Collaborators σ) (H : Header) (wait_timeout : Int) (v : Vehicle σ) :
    ErrorCode × Vehicle σ :=
  action_timeout E H H.stopMotor wait_timeout v

/-- The overload `Control::disArmMotors(VehicleCallBack callback, UserData userData)`. -/
def disArmMotors_callback (E : Collaborators σ) (H : Header) (callback : VehicleCallBack)
    (userData : UserData) (v : Vehicle σ) : Option (Vehicle σ) :=
  action_callback E H H.stopMotor callback userData v

/-- The overload `Control::takeoff(int wait_timeout)`. -/
def takeoff_timeout (E : Collaborators σ) (H : Header) (wait_timeout : Int) (v : Vehicle σ) :
    ErrorCode × Vehicle σ :=
  action_timeout E H H.takeOff wait_timeout v

/-- The overload `Control::takeoff(VehicleCallBack callback, UserData userData)`. -/
def takeoff_callback (E : Collaborators σ) (H : Header) (callback : VehicleCallBack)
    (userData : UserData) (v : Vehicle σ) : Option (Vehicle σ) :=
  action_callback E H H.takeOff callback userData v

/-- The overload `Control::goHome(int wait_timeout)`. -/
def goHome_timeout (E : Collaborators σ) (H : Header) (wait_timeout : Int) (v : Vehicle σ) :
    ErrorCode × Vehicle σ :=
  action_timeout E H H.goHome wait_timeout v

/-- The overload `Control::goHome(VehicleCallBack callback, UserData userData)`. -/
def goHome_callback (E : Collaborators σ) (H : Header) (callback : VehicleCallBack)
    (userData : UserData) (v : Vehicle σ) : Option (Vehicle σ) :=
  action_callback E H H.goHome callback userData v

/-- The overload `Control::land(int wait_timeout)`. -/
def land_timeout (E : Collaborators σ) (H : Header) (wait_timeout : Int) (v : Vehicle σ) :
    ErrorCode × Vehicle σ :=
  action_timeout E H H.landing wait_timeout v

/-- The overload `Control::land(VehicleCallBack callback, UserData userData)`. -/
def land_callback (E : Collaborators σ) (H : Header) (callback : VehicleCallBack)
    (userData : UserData) (v : Vehicle σ) : Option (Vehicle σ) :=
  action_callback E H H.landing callback userData v

/-- The overload `Control::flightCtrl(CtrlData data)`. -/
def flightCtrl (E : Collaborators σ) (H : Header) (data : CtrlData) (v : Vehicle σ) : Vehicle σ :=
  v.send E
    { session := 0, encrypt := H.encrypt, cmd := CMDSet.control, data := Payload.ctrlData data,
      len := H.sizeofCtrlData, timeout := 500, retry := 2, isAsync := false, cbIndex := 1 }

/-- The overload `Control::flightCtrl(AdvancedCtrlData data)`. -/
def flightCtrl_adv (E : Collaborators σ) (H : Header) (data : AdvancedCtrlData) (v : Vehicle σ) :
    Vehicle σ :=
  v.send E
    { session := 0, encrypt := H.encrypt, cmd := CMDSet.control,
      data := Payload.advancedCtrlData data,
      len := H.sizeofAdvancedCtrlData, timeout := 500, retry := 2, isAsync := false, cbIndex := 1 }

/-- The method `Control::positionAndYawCtrl(x, y, z, yaw)`. -/
def positionAndYawCtrl (E : Collaborators σ) (H : Header) (x y z yaw : float32_t)
    (v : Vehicle σ) : Vehicle σ :=
  let ctrl_flag := (H.VERTICAL_POSITION ||| H.HORIZONTAL_POSITION ||| H.YAW_ANGLE |||
    H.HORIZONTAL_GROUND ||| H.STABLE_ENABLE) % 256
  let data := CtrlData.ctor ctrl_flag x y z yaw
  flightCtrl E H data v

/-- The method `Control::velocityAndYawRateCtrl(Vx, Vy, Vz, yawRate)`. -/
def velocityAndYawRateCtrl (E : Collaborators σ) (H : Header) (Vx Vy Vz yawRate : float32_t)
    (v : Vehicle σ) : Vehicle σ :=
  let ctrl_flag := (H.VERTICAL_VELOCITY ||| H.HORIZONTAL_VELOCITY ||| H.YAW_RATE |||
    H.HORIZONTAL_GROUND) % 256
  let data := CtrlData.ctor ctrl_flag Vx Vy Vz yawRate
  flightCtrl E H data v

/-- The method `Control::attitudeAndVertPosCtrl(roll, pitch, yaw, z)`. -/
def attitudeAndVertPosCtrl (E : Collaborators σ) (H : Header) (roll pitch yaw z : float32_t)
    (v : Vehicle σ) : Vehicle σ :=
  let ctrl_flag := (H.VERTICAL_POSITION ||| H.HORIZONTAL_ANGLE ||| H.YAW_ANGLE |||
    H.HORIZONTAL_BODY) % 256
  let data := CtrlData.ctor ctrl_flag roll pitch z yaw
  flightCtrl E H data v

/-- The method `Control::angularRateAndVertPosCtrl(rollRate, pitchRate, yawRate, z)`. -/
def angularRateAndVertPosCtrl (E : Collaborators σ) (H : Header)
    (rollRate pitchRate yawRate z : float32_t) (v : Vehicle σ) : Vehicle σ :=
  let ctrl_flag := (H.VERTICAL_POSITION ||| H.HORIZONTAL_ANGULAR_RATE ||| H.YAW_RATE |||
    H.HORIZONTAL_BODY) % 256
  let data := CtrlData.ctor ctrl_flag rollRate pitchRate z yawRate
  flightCtrl E H data v

/-- The method `Control::emergencyBrake()`. -/
def emergencyBrake (E : Collaborators σ) (H : Header) (v : Vehicle σ) : Vehicle σ :=
  let data := AdvancedCtrlData.ctor 72 float32_t.zero float32_t.zero float32_t.zero
    float32_t.zero float32_t.zero float32_t.zero
  flightCtrl_adv E H data v

/-- What a run of `Control::actionCallback` leaves behind. -/
inductive Diagnostic where
  /-- The call `ACK::getErrorCodeMessage(ack, __func__)`. -/
  | getErrorCodeMessage (ack : ErrorCode) (func : String)
  /-- The call `DERROR(format, seqNumber)`. -/
  | DERROR (format : String) (seqNumber : Nat)
  deriving DecidableEq, Repr

/-- The outcome of `Control::actionCallback`: the local `ack` if it was
assigned, and the diagnostics emitted. -/
structure CallbackRun where
  ack : Option ErrorCode
  log : List Diagnostic
  deriving DecidableEq, Repr

/-- The length test `recvFrame.recvInfo.len - Protocol::PackageMin <=
sizeof(uint16_t)`: the difference is compared as an unsigned word of
`H.wordBits` bits, so it is taken modulo `2 ^ H.wordBits`. -/
def lengthTest (H : Header) (len : Nat) : Bool :=
  decide ((((len : Int) - (H.PackageMin : Int)) % (2 : Int) ^ H.wordBits) ≤ 2)

/-- The static method `Control::actionCallback(vehiclePtr, recvFrame, userData)`;
`getError` is `ACK::getError`. -/
def actionCallback (H : Header) (getError : ErrorCode → Bool) (recvFrame : RecvContainer)
    (_userData : UserData) : CallbackRun :=
  if lengthTest H recvFrame.recvInfo.len then
    let ack : ErrorCode := { info := recvFrame.recvInfo, data := recvFrame.recvData.ack }
    if getError ack then
      { ack := some ack, log := [Diagnostic.getErrorCodeMessage ack "actionCallback"] }
    else
      { ack := some ack, log := [] }
  else
    { ack := none,
      log := [Diagnostic.DERROR "ACK is exception, sequence %d\n" recvFrame.recvInfo.seqNumber] }

end Control

/-! ## Sample collaborators -/

/-- A sample allocator and transport over a counter: slot indices rotate
through 0..199, `send` leaves the counter alone, and `waitForACK` answers with a
two-byte acknowledgment whose code is the timeout asked for. -/
def sampleCollaborators : Collaborators Nat where
  callbackIdIndex := fun n => if n = 199 then (0, 0) else (((n + 1 : Nat) : Int), n + 1)
  send := fun _ n => n
  waitForACK := fun _ timeout n => ({ info := { len := 18, seqNumber := n }, data := timeout.toNat }, n)

/-- A sample vehicle with four slots, all empty, and no call made yet. -/
def sampleVehicle : Vehicle Nat where
  nbCallbackFunctions := [VehicleCallBack.null, VehicleCallBack.null, VehicleCallBack.null,
    VehicleCallBack.null]
  nbUserData := [UserData.NULL, UserData.NULL, UserData.NULL, UserData.NULL]
  collab := 0
  calls := []

/-! ## Vocabulary of the statements -/

/-- The `send` arguments of a discrete command: one byte holding the opcode, on
the `task` command set, with the given async flag and slot index. -/
def taskSend (H : Header) (opcode : Int) (isAsync : Bool) (cbIndex : Int) : SendArgs where
  session := 2
  encrypt := H.encrypt
  cmd := CMDSet.task
  data := Payload.byte (uint8 opcode)
  len := 1
  timeout := 500
  retry := 2
  isAsync := isAsync
  cbIndex := cbIndex

/-- The slot index the allocator hands out at the next call in state `v`. -/
def nextSlot {σ : Type} (E : Collaborators σ) (v : Vehicle σ) : Int :=
  (E.callbackIdIndex v.collab).1

/-- The slot index `i` lies inside both tables of `v`. -/
def InTables {σ : Type} (i : Int) (v : Vehicle σ) : Prop :=
  0 ≤ i ∧ i.toNat < v.nbCallbackFunctions.length ∧ i.toNat < v.nbUserData.length

instance {σ : Type} (i : Int) (v : Vehicle σ) : Decidable (InTables i v) := by
  unfold InTables; infer_instance

/-- The slot index the allocator hands out to a second dispatch made right
after a first callback-form dispatch of `cmd` from state `v`: the allocator is
asked again in the state the first `send` left. -/
def secondSlot {σ : Type} (E : Collaborators σ) (H : Header) (cmd : Int) (v : Vehicle σ) : Int :=
  (E.callbackIdIndex
    (E.send (taskSend H cmd true (nextSlot E v)) (E.callbackIdIndex v.collab).2)).1

/-- What a slot is expected to hold after a dispatch with the given callback
and context: the pair itself, or the default handler with a null context when
no callback was supplied. -/
def binding (callback : VehicleCallBack) (userData : UserData) : VehicleCallBack × UserData :=
  if callback ≠ VehicleCallBack.null then (callback, userData)
  else (VehicleCallBack.actionCallback, UserData.NULL)

/-- The `send` arguments of a setpoint frame: the frame and its size, on the
`control` command set, with timeout 500 and retry count 2. -/
def controlSend (H : Header) (data : Payload) (len : Nat) : SendArgs where
  session := 0
  encrypt := H.encrypt
  cmd := CMDSet.control
  data := data
  len := len
  timeout := 500
  retry := 2
  isAsync := false
  cbIndex := 1

/-- The handler took the decode branch on `recvFrame`: the acknowledgment is
built from the frame, and a message is emitted exactly when `getError` holds. -/
def Decoded (getError : ErrorCode → Bool) (recvFrame : RecvContainer)
    (run : Control.CallbackRun) : Prop :=
  run.ack = some { info := recvFrame.recvInfo, data := recvFrame.recvData.ack } ∧
  run.log =
    if getError { info := recvFrame.recvInfo, data := recvFrame.recvData.ack } then
      [Control.Diagnostic.getErrorCodeMessage
        { info := recvFrame.recvInfo, data := recvFrame.recvData.ack } "actionCallback"]
    else []

/-- The handler took the diagnostic branch on `recvFrame`: nothing is decoded
and "ACK is exception" is reported with the frame's sequence number. -/
def Excepted (recvFrame : RecvContainer) (run : Control.CallbackRun) : Prop :=
  run.ack = none ∧
  run.log =
    [Control.Diagnostic.DERROR "ACK is exception, sequence %d\n" recvFrame.recvInfo.seqNumber]

/-- Modelled from the spec: the outcome classes of a blocking dispatch, of which
a timeout is "returned to caller as an error-code value distinguishable from
protocol error codes" and a protocol error code is "returned as-is".
`Vehicle::waitForACK`, which decides how a timeout is marked in the
acknowledgment it hands back, is not part of this file. -/
inductive Outcome where
  | TransportTimeout
  | ProtocolErrorCode (ack : ErrorCode)
  deriving DecidableEq, Repr

/-- Modelled from the spec: the outcome class of an acknowledgment value, given
the transport's mark `isTimeout` for acknowledgments that signal a timeout. -/
def outcome (isTimeout : ErrorCode → Bool) (ack : ErrorCode) : Outcome :=
  if isTimeout ack then Outcome.TransportTimeout else Outcome.ProtocolErrorCode ack

/-! ## Lemmas on the tables -/

theorem store_eq_some {α : Type} (table : List α) (i : Int) (a : α)
    (h0 : 0 ≤ i) (h1 : i.toNat < table.length) :
    Vehicle.store table i a = some (table.set i.toNat a) := by
  unfold Vehicle.store
  rw [if_pos ⟨h0, h1⟩]

/-- A dispatch whose slot lies inside the tables succeeds, and its result is
the state with both entries stored and the four steps recorded in order. -/
theorem action_callback_eq {σ : Type} (E : Collaborators σ) (H : Header) (cmd : Int)
    (callback : VehicleCallBack) (userData : UserData) (v : Vehicle σ)
    (h : InTables (nextSlot E v) v) :
    Control.action_callback E H cmd callback userData v =
      some
        { nbCallbackFunctions :=
            v.nbCallbackFunctions.set (nextSlot E v).toNat (binding callback userData).1
          nbUserData := v.nbUserData.set (nextSlot E v).toNat (binding callback userData).2
          collab := E.send (taskSend H cmd true (nextSlot E v)) (E.callbackIdIndex v.collab).2
          calls := v.calls ++
            [Call.callbackIdIndex,
              Call.storeCallback (nextSlot E v) (binding callback userData).1,
              Call.storeUserData (nextSlot E v) (binding callback userData).2,
              Call.send (taskSend H cmd true (nextSlot E v))] } := by
  obtain ⟨h0, h1, h2⟩ := h
  unfold nextSlot at h0 h1 h2
  by_cases hc : callback = VehicleCallBack.null
  · simp [Control.action_callback, Vehicle.callbackIdIndex, Vehicle.setCallback,
      Vehicle.setUserData, Vehicle.send, store_eq_some, h0, h1, h2, hc, binding, nextSlot,
      taskSend]
  · simp [Control.action_callback, Vehicle.callbackIdIndex, Vehicle.setCallback,
      Vehicle.setUserData, Vehicle.send, store_eq_some, h0, h1, h2, hc, binding, nextSlot,
      taskSend]

/-- After a successful dispatch the allocated slot resolves to the binding, the
other entries of both tables are as before, and so are the table sizes. -/
theorem action_callback_tables {σ : Type} (E : Collaborators σ) (H : Header) (cmd : Int)
    (callback : VehicleCallBack) (userData : UserData) (v w : Vehicle σ)
    (h : InTables (nextSlot E v) v)
    (hw : Control.action_callback E H cmd callback userData v = some w) :
    w.resolve (nextSlot E v).toNat = some (binding callback userData) ∧
    (∀ j : Nat, j ≠ (nextSlot E v).toNat →
      w.nbCallbackFunctions[j]? = v.nbCallbackFunctions[j]? ∧
      w.nbUserData[j]? = v.nbUserData[j]?) ∧
    w.nbCallbackFunctions.length = v.nbCallbackFunctions.length ∧
    w.nbUserData.length = v.nbUserData.length := by
  rw [action_callback_eq E H cmd callback userData v h] at hw
  obtain ⟨_, h1, h2⟩ := h
  cases hw
  refine ⟨?_, ?_, ?_, ?_⟩
  · simp [Vehicle.resolve, List.getElem?_set, h1, h2]
  · intro j hj
    have hj2 : (nextSlot E v).toNat ≠ j := fun e => hj e.symm
    simp [List.getElem?_set, hj2]
  · simp
  · simp

/-! ## Lemmas on the length test and on flags -/

/-- A difference taken modulo `M` is at most 2 exactly when it is one of 0, 1, 2
before wrapping, provided both operands are below `M - 2`. -/
theorem wrap_le_two_iff (len pm M : Int) (h0 : 0 ≤ len) (hp0 : 0 ≤ pm) (hP : pm + 2 < M)
    (hl : len < M) : (len - pm) % M ≤ 2 ↔ pm ≤ len ∧ len ≤ pm + 2 := by
  by_cases h : pm ≤ len
  · have e : (len - pm) % M = len - pm := Int.emod_eq_of_lt (by omega) (by omega)
    rw [e]; omega
  · have e : (len - pm) % M = len - pm + M := by
      have e1 : (len - pm) % M = (len - pm + M) % M := by simp
      rw [e1]
      exact Int.emod_eq_of_lt (by omega) (by omega)
    rw [e]; omega

/-- The length test of the handler holds exactly on the lengths `PackageMin`,
`PackageMin + 1` and `PackageMin + 2`. -/
theorem lengthTest_iff (H : Header) (len : Nat) (hP : H.PackageMin + 2 < 2 ^ H.wordBits)
    (hl : len < 2 ^ H.wordBits) :
    Control.lengthTest H len = true ↔ H.PackageMin ≤ len ∧ len ≤ H.PackageMin + 2 := by
  unfold Control.lengthTest
  rw [decide_eq_true_iff]
  have hP2 : (H.PackageMin : Int) + 2 < (2 : Int) ^ H.wordBits := by exact_mod_cast hP
  have hl2 : (len : Int) < (2 : Int) ^ H.wordBits := by exact_mod_cast hl
  rw [wrap_le_two_iff (len : Int) (H.PackageMin : Int) ((2 : Int) ^ H.wordBits)
    (Int.ofNat_nonneg _) (Int.ofNat_nonneg _) hP2 hl2]
  omega

theorem actionCallback_of_test (H : Header) (getError : ErrorCode → Bool)
    (recvFrame : RecvContainer) (userData : UserData)
    (h : Control.lengthTest H recvFrame.recvInfo.len = true) :
    Decoded getError recvFrame (Control.actionCallback H getError recvFrame userData) := by
  unfold Decoded Control.actionCallback
  rw [if_pos h]
  by_cases hg : getError { info := recvFrame.recvInfo, data := recvFrame.recvData.ack } = true
  · simp [hg]
  · simp [hg]

theorem actionCallback_of_not_test (H : Header) (getError : ErrorCode → Bool)
    (recvFrame : RecvContainer) (userData : UserData)
    (h : Control.lengthTest H recvFrame.recvInfo.len = false) :
    Excepted recvFrame (Control.actionCallback H getError recvFrame userData) := by
  unfold Excepted Control.actionCallback
  simp [h]

/-- The two branches of the handler exclude each other. -/
theorem decoded_not_excepted (getError : ErrorCode → Bool) (recvFrame : RecvContainer)
    (run : Control.CallbackRun) (hd : Decoded getError recvFrame run) :
    ¬ Excepted recvFrame run := by
  intro he
  have h1 := hd.1
  rw [he.1] at h1
  exact Option.noConfusion h1

theorem or_lt_256 (a b : Nat) (ha : a < 256) (hb : b < 256) : a ||| b < 256 := by
  have h : a ||| b < 2 ^ 8 := Nat.or_lt_two_pow ha hb
  simpa using h

/-! ## Discrete commands, blocking form -/

/-- C1: for each of the five discrete commands and every timeout, the blocking
entry point makes exactly two calls, in this order: one `send` of the single
byte holding the command's opcode (startMotor, stopMotor, takeOff, goHome,
landing) on the `task` command set with the async flag false, then one
`waitForACK` on the `task` command set with the caller's timeout.  The byte is
the opcode itself whenever the opcode fits in a byte. -/
theorem blocking_commands_send_then_wait {σ : Type} (E : Collaborators σ) (H : Header)
    (timeout : Int) (v : Vehicle σ) :
    (Control.armMotors_timeout E H timeout v).2.calls =
        v.calls ++ [Call.send (taskSend H H.startMotor false 2),
          Call.waitForACK CMDSet.task timeout] ∧
    (Control.disArmMotors_timeout E H timeout v).2.calls =
        v.calls ++ [Call.send (taskSend H H.stopMotor false 2),
          Call.waitForACK CMDSet.task timeout] ∧
    (Control.takeoff_timeout E H timeout v).2.calls =
        v.calls ++ [Call.send (taskSend H H.takeOff false 2),
          Call.waitForACK CMDSet.task timeout] ∧
    (Control.goHome_timeout E H timeout v).2.calls =
        v.calls ++ [Call.send (taskSend H H.goHome false 2),
          Call.waitForACK CMDSet.task timeout] ∧
    (Control.land_timeout E H timeout v).2.calls =
        v.calls ++ [Call.send (taskSend H H.landing false 2),
          Call.waitForACK CMDSet.task timeout] ∧
    (∀ opcode : Int, 0 ≤ opcode → opcode < 256 →
      (taskSend H opcode false 2).data = Payload.byte opcode.toNat) := by
  refine ⟨?_, ?_, ?_, ?_, ?_, ?_⟩
  · simp [Control.armMotors_timeout, Control.action_timeout, Vehicle.send, Vehicle.waitForACK,
      taskSend]
  · simp [Control.disArmMotors_timeout, Control.action_timeout, Vehicle.send,
      Vehicle.waitForACK, taskSend]
  · simp [Control.takeoff_timeout, Control.action_timeout, Vehicle.send, Vehicle.waitForACK,
      taskSend]
  · simp [Control.goHome_timeout, Control.action_timeout, Vehicle.send, Vehicle.waitForACK,
      taskSend]
  · simp [Control.land_timeout, Control.action_timeout, Vehicle.send, Vehicle.waitForACK,
      taskSend]
  · intro opcode h0 h1
    have h : opcode % 256 = opcode := Int.emod_eq_of_lt h0 h1
    simp [taskSend, uint8, h]

/-- Witness for C1 on the sample vehicle with timeout 10: arming sends the byte 7
and then waits. -/
theorem blocking_commands_send_then_wait_witness :
    (Control.armMotors_timeout sampleCollaborators osdkHeader 10 sampleVehicle).2.calls =
      [Call.send
          { session := 2, encrypt := 0, cmd := CMDSet.task, data := Payload.byte 7, len := 1,
            timeout := 500, retry := 2, isAsync := false, cbIndex := 2 },
        Call.waitForACK CMDSet.task 10] ∧
    (taskSend osdkHeader 7 false 2).data = Payload.byte 7 :=
  ⟨(blocking_commands_send_then_wait sampleCollaborators osdkHeader 10 sampleVehicle).1,
    (blocking_commands_send_then_wait sampleCollaborators osdkHeader 10 sampleVehicle).2.2.2.2.2
      7 (by decide) (by decide)⟩

/-- C2: the blocking dispatch makes one `send` and one `waitForACK` (no retry of
its own) and returns exactly the acknowledgment that `waitForACK` handed back,
unmodified.  Hence, for every way the transport marks a timeout in that
acknowledgment: if `waitForACK` signals a timeout the caller gets a
`TransportTimeout` outcome, which is no `ProtocolErrorCode` outcome; in every
other case the caller gets the acknowledgment `waitForACK` produced. -/
theorem action_timeout_returns_ack {σ : Type} (E : Collaborators σ) (H : Header)
    (cmd timeout : Int) (v : Vehicle σ) :
    (Control.action_timeout E H cmd timeout v).1 =
        (E.waitForACK CMDSet.task timeout (E.send (taskSend H cmd false 2) v.collab)).1 ∧
    (Control.action_timeout E H cmd timeout v).2.calls =
        v.calls ++ [Call.send (taskSend H cmd false 2), Call.waitForACK CMDSet.task timeout] ∧
    (∀ isTimeout : ErrorCode → Bool,
      (isTimeout
          (E.waitForACK CMDSet.task timeout (E.send (taskSend H cmd false 2) v.collab)).1 = true →
        outcome isTimeout (Control.action_timeout E H cmd timeout v).1 =
            Outcome.TransportTimeout ∧
        ∀ protocolErrorCode : ErrorCode,
          outcome isTimeout (Control.action_timeout E H cmd timeout v).1 ≠
            Outcome.ProtocolErrorCode protocolErrorCode) ∧
      (isTimeout
          (E.waitForACK CMDSet.task timeout (E.send (taskSend H cmd false 2) v.collab)).1 = false →
        outcome isTimeout (Control.action_timeout E H cmd timeout v).1 =
          Outcome.ProtocolErrorCode
            (E.waitForACK CMDSet.task timeout
              (E.send (taskSend H cmd false 2) v.collab)).1)) := by
  have hres : (Control.action_timeout E H cmd timeout v).1 =
      (E.waitForACK CMDSet.task timeout (E.send (taskSend H cmd false 2) v.collab)).1 := by
    simp [Control.action_timeout, Vehicle.send, Vehicle.waitForACK, taskSend]
  refine ⟨hres, ?_, ?_⟩
  · simp [Control.action_timeout, Vehicle.send, Vehicle.waitForACK, taskSend]
  · intro isTimeout
    rw [hres]
    refine ⟨fun ht => ?_, fun hf => ?_⟩
    · simp [outcome, ht]
    · simp [outcome, hf]

/-- Witness for C2: the sample transport answers with the timeout asked for as
code.  If it marks timeouts by the code 10, `action_timeout` with timeout 10
gives a `TransportTimeout` outcome; if it marks them by the code 99, the caller
gets the acknowledgment with code 10 as it was produced. -/
theorem action_timeout_returns_ack_witness :
    outcome (fun e => decide (e.data = 10))
        (Control.action_timeout sampleCollaborators osdkHeader 7 10 sampleVehicle).1 =
      Outcome.TransportTimeout ∧
    outcome (fun e => decide (e.data = 99))
        (Control.action_timeout sampleCollaborators osdkHeader 7 10 sampleVehicle).1 =
      Outcome.ProtocolErrorCode { info := { len := 18, seqNumber := 0 }, data := 10 } :=
  ⟨(((action_timeout_returns_ack sampleCollaborators osdkHeader 7 10 sampleVehicle).2.2
      (fun e => decide (e.data = 10))).1 (by decide)).1,
    ((action_timeout_returns_ack sampleCollaborators osdkHeader 7 10 sampleVehicle).2.2
      (fun e => decide (e.data = 99))).2 (by decide)⟩

/-! ## Discrete commands, callback form -/

/-- C3: for every opcode, callback and user context, when the slot index `i`
handed out by the allocator lies inside the tables, the callback form of
`action` succeeds and makes exactly these steps, in this order: it asks the
allocator once, stores into entry `i` of the callback table and then of the
user-context table the caller's callback and context (the default handler
`actionCallback` and a null context when the callback is null), and only then
makes one `send` of the one-byte opcode on the `task` command set with the
async flag true and slot index `i`.  Slot `i` holds that pair afterwards, and
`waitForACK` is not called. -/
theorem action_callback_binds_then_sends {σ : Type} (E : Collaborators σ) (H : Header)
    (cmd : Int) (callback : VehicleCallBack) (userData : UserData) (v : Vehicle σ)
    (h : InTables (nextSlot E v) v) :
    ∃ w, Control.action_callback E H cmd callback userData v = some w ∧
      w.resolve (nextSlot E v).toNat =
        some (if callback ≠ VehicleCallBack.null then (callback, userData)
          else (VehicleCallBack.actionCallback, UserData.NULL)) ∧
      w.calls = v.calls ++
        [Call.callbackIdIndex,
          Call.storeCallback (nextSlot E v)
            (if callback ≠ VehicleCallBack.null then callback
              else VehicleCallBack.actionCallback),
          Call.storeUserData (nextSlot E v)
            (if callback ≠ VehicleCallBack.null then userData else UserData.NULL),
          Call.send
            { session := 2, encrypt := H.encrypt, cmd := CMDSet.task,
              data := Payload.byte (uint8 cmd), len := 1, timeout := 500, retry := 2,
              isAsync := true, cbIndex := nextSlot E v }] := by
  obtain ⟨w, hw⟩ : ∃ w, Control.action_callback E H cmd callback userData v = some w :=
    ⟨_, action_callback_eq E H cmd callback userData v h⟩
  refine ⟨w, hw, ?_, ?_⟩
  · exact (action_callback_tables E H cmd callback userData v w h hw).1
  · rw [action_callback_eq E H cmd callback userData v h] at hw
    cases hw
    by_cases hc : callback = VehicleCallBack.null
    · simp [taskSend, binding, hc]
    · simp [taskSend, binding, hc]

/-- Witness for C3 on the sample vehicle: with no callback supplied, the
allocator gives slot 1, the default handler and a null context are stored into
slot 1, and then one asynchronous `send` of the byte 7 tagged with slot 1 is
made; slot 1 resolves to the default handler afterwards. -/
theorem action_callback_binds_then_sends_witness :
    ∃ w, Control.action_callback sampleCollaborators osdkHeader 7 VehicleCallBack.null
        (UserData.ptr 5) sampleVehicle = some w ∧
      w.resolve 1 = some (VehicleCallBack.actionCallback, UserData.NULL) ∧
      w.calls =
        [Call.callbackIdIndex,
          Call.storeCallback 1 VehicleCallBack.actionCallback,
          Call.storeUserData 1 UserData.NULL,
          Call.send
            { session := 2, encrypt := 0, cmd := CMDSet.task, data := Payload.byte 7, len := 1,
              timeout := 500, retry := 2, isAsync := true, cbIndex := 1 }] :=
  action_callback_binds_then_sends sampleCollaborators osdkHeader 7 VehicleCallBack.null
    (UserData.ptr 5) sampleVehicle (by decide)

/-- C4: a callback-form dispatch whose slot index `i` lies inside the tables
changes only entry `i` of the callback table and of the user-context table:
every entry `j ≠ i` and both table sizes are as before.  Consequently, when a
second dispatch B follows a dispatch A and receives a different slot (inside
the tables), resolving A's slot afterwards yields A's callback and context (the
default handler with a null context if A supplied none) and resolving B's slot
yields B's; A and B are arbitrary, so this covers either dispatch order. -/
theorem action_callback_frame {σ : Type} (E : Collaborators σ) (H : Header)
    (cmdA : Int) (callbackA : VehicleCallBack) (userDataA : UserData)
    (cmdB : Int) (callbackB : VehicleCallBack) (userDataB : UserData) (v : Vehicle σ)
    (hA : InTables (nextSlot E v) v) :
    ∃ wA, Control.action_callback E H cmdA callbackA userDataA v = some wA ∧
      (∀ j : Nat, j ≠ (nextSlot E v).toNat →
        wA.nbCallbackFunctions[j]? = v.nbCallbackFunctions[j]? ∧
        wA.nbUserData[j]? = v.nbUserData[j]?) ∧
      wA.nbCallbackFunctions.length = v.nbCallbackFunctions.length ∧
      wA.nbUserData.length = v.nbUserData.length ∧
      nextSlot E wA = secondSlot E H cmdA v ∧
      (InTables (secondSlot E H cmdA v) v → secondSlot E H cmdA v ≠ nextSlot E v →
        ∃ wB, Control.action_callback E H cmdB callbackB userDataB wA = some wB ∧
          wB.resolve (nextSlot E v).toNat = some (binding callbackA userDataA) ∧
          wB.resolve (secondSlot E H cmdA v).toNat = some (binding callbackB userDataB)) := by
  obtain ⟨wA, hwA⟩ : ∃ w, Control.action_callback E H cmdA callbackA userDataA v = some w :=
    ⟨_, action_callback_eq E H cmdA callbackA userDataA v hA⟩
  obtain ⟨rA, fA, lA1, lA2⟩ := action_callback_tables E H cmdA callbackA userDataA v wA hA hwA
  have hslot : nextSlot E wA = secondSlot E H cmdA v := by
    have e := hwA
    rw [action_callback_eq E H cmdA callbackA userDataA v hA] at e
    cases e
    rfl
  refine ⟨wA, hwA, fA, lA1, lA2, hslot, ?_⟩
  intro hB hne
  rw [← hslot] at hB hne ⊢
  have hB2 : InTables (nextSlot E wA) wA := ⟨hB.1, lA1 ▸ hB.2.1, lA2 ▸ hB.2.2⟩
  obtain ⟨wB, hwB⟩ : ∃ w, Control.action_callback E H cmdB callbackB userDataB wA = some w :=
    ⟨_, action_callback_eq E H cmdB callbackB userDataB wA hB2⟩
  obtain ⟨rB, fB, _, _⟩ := action_callback_tables E H cmdB callbackB userDataB wA wB hB2 hwB
  refine ⟨wB, hwB, ?_, rB⟩
  have hidx : (nextSlot E v).toNat ≠ (nextSlot E wA).toNat := by
    intro e
    apply hne
    have e1 := congrArg (fun n : Nat => (n : Int)) e
    simp only [Int.toNat_of_nonneg hB.1, Int.toNat_of_nonneg hA.1] at e1
    exact e1.symm
  have hf := fB _ hidx
  rw [← rA]
  simp only [Vehicle.resolve, hf.1, hf.2]

/-- Witness for C4 on the sample vehicle: dispatch A (callback at address 11,
context at address 5) gets slot 1, dispatch B (no callback) gets slot 2, and
afterwards slot 1 resolves to A's pair and slot 2 to the default handler. -/
theorem action_callback_frame_witness :
    ∃ wA wB,
      Control.action_callback sampleCollaborators osdkHeader 7 (VehicleCallBack.user 11)
        (UserData.ptr 5) sampleVehicle = some wA ∧
      Control.action_callback sampleCollaborators osdkHeader 1 VehicleCallBack.null
        (UserData.ptr 6) wA = some wB ∧
      wB.resolve 1 = some (VehicleCallBack.user 11, UserData.ptr 5) ∧
      wB.resolve 2 = some (VehicleCallBack.actionCallback, UserData.NULL) ∧
      wA.nbCallbackFunctions[0]? = sampleVehicle.nbCallbackFunctions[0]? := by
  obtain ⟨wA, hwA, fA, _, _, _, hAB⟩ :=
    action_callback_frame sampleCollaborators osdkHeader 7 (VehicleCallBack.user 11)
      (UserData.ptr 5) 1 VehicleCallBack.null (UserData.ptr 6) sampleVehicle (by decide)
  obtain ⟨wB, hwB, r1, r2⟩ := hAB (by decide) (by decide)
  exact ⟨wA, wB, hwA, hwB, r1, r2, (fA 0 (by decide)).1⟩

/-! ## Setpoint frames -/

/-- C6: for all channel values, `positionAndYawCtrl(x, y, z, yaw)` sends the
basic frame whose flag is `VERTICAL_POSITION | HORIZONTAL_POSITION | YAW_ANGLE |
HORIZONTAL_GROUND | STABLE_ENABLE` stored in a `uint8_t` and whose fields are
x, y, z, yaw in that order.  The stored flag is the OR itself when the
enumerators fit in a byte, and it is 145 for the enumerator values of the OSDK
header. -/
theorem positionAndYawCtrl_frame {σ : Type} (E : Collaborators σ) (H : Header)
    (x y z yaw : float32_t) (v : Vehicle σ) :
    (Control.positionAndYawCtrl E H x y z yaw v).calls =
      v.calls ++
        [Call.send (controlSend H
          (Payload.ctrlData
            { flag := (H.VERTICAL_POSITION ||| H.HORIZONTAL_POSITION ||| H.YAW_ANGLE |||
                H.HORIZONTAL_GROUND ||| H.STABLE_ENABLE) % 256,
              x := x, y := y, z := z, yaw := yaw })
          H.sizeofCtrlData)] ∧
    (H.VERTICAL_POSITION < 256 → H.HORIZONTAL_POSITION < 256 → H.YAW_ANGLE < 256 →
      H.HORIZONTAL_GROUND < 256 → H.STABLE_ENABLE < 256 →
      (H.VERTICAL_POSITION ||| H.HORIZONTAL_POSITION ||| H.YAW_ANGLE |||
          H.HORIZONTAL_GROUND ||| H.STABLE_ENABLE) % 256 =
        H.VERTICAL_POSITION ||| H.HORIZONTAL_POSITION ||| H.YAW_ANGLE |||
          H.HORIZONTAL_GROUND ||| H.STABLE_ENABLE) ∧
    (osdkHeader.VERTICAL_POSITION ||| osdkHeader.HORIZONTAL_POSITION ||| osdkHeader.YAW_ANGLE |||
      osdkHeader.HORIZONTAL_GROUND ||| osdkHeader.STABLE_ENABLE) % 256 = 145 := by
  refine ⟨?_, ?_, by decide⟩
  · simp [Control.positionAndYawCtrl, Control.flightCtrl, Vehicle.send, CtrlData.ctor,
      controlSend]
  · intro h1 h2 h3 h4 h5
    exact Nat.mod_eq_of_lt
      (or_lt_256 _ _ (or_lt_256 _ _ (or_lt_256 _ _ (or_lt_256 _ _ h1 h2) h3) h4) h5)

/-- Witness for C6: with the OSDK enumerator values, the inputs 1, 2, 3, 4 (as
binary32 patterns) give one `send` of the frame with flag 145 and fields
1, 2, 3, 4 in that order, and the flag is the OR of the five enumerators. -/
theorem positionAndYawCtrl_frame_witness :
    (Control.positionAndYawCtrl sampleCollaborators osdkHeader ⟨0x3F800000⟩ ⟨0x40000000⟩
        ⟨0x40400000⟩ ⟨0x40800000⟩ sampleVehicle).calls =
      [Call.send
        { session := 0, encrypt := 0, cmd := CMDSet.control,
          data := Payload.ctrlData
            { flag := 145, x := ⟨0x3F800000⟩, y := ⟨0x40000000⟩, z := ⟨0x40400000⟩,
              yaw := ⟨0x40800000⟩ },
          len := 17, timeout := 500, retry := 2, isAsync := false, cbIndex := 1 }] ∧
    (0x10 ||| 0x80 ||| 0x00 ||| 0x00 ||| 0x01) % 256 = 0x10 ||| 0x80 ||| 0x00 ||| 0x00 ||| 0x01 :=
  ⟨(positionAndYawCtrl_frame sampleCollaborators osdkHeader ⟨0x3F800000⟩ ⟨0x40000000⟩
      ⟨0x40400000⟩ ⟨0x40800000⟩ sampleVehicle).1,
    (positionAndYawCtrl_frame sampleCollaborators osdkHeader ⟨0x3F800000⟩ ⟨0x40000000⟩
      ⟨0x40400000⟩ ⟨0x40800000⟩ sampleVehicle).2.1
      (by decide) (by decide) (by decide) (by decide) (by decide)⟩

/-- C7, as the code runs: `emergencyBrake()` makes exactly one `send`, of the
advanced frame with all six channel values zero and the marker 0x01, and the
flag it carries is 72, not the 75 that the note in the code states. -/
theorem emergencyBrake_sends_flag_72 {σ : Type} (E : Collaborators σ) (H : Header)
    (v : Vehicle σ) :
    (Control.emergencyBrake E H v).calls =
      v.calls ++
        [Call.send (controlSend H
          (Payload.advancedCtrlData
            { flag := 72, x := float32_t.zero, y := float32_t.zero, z := float32_t.zero,
              yaw := float32_t.zero, xFeedforward := float32_t.zero,
              yFeedforward := float32_t.zero, advFlag := 0x01 })
          H.sizeofAdvancedCtrlData)] ∧
    (Control.emergencyBrake E H v).calls ≠
      v.calls ++
        [Call.send (controlSend H
          (Payload.advancedCtrlData
            { flag := 75, x := float32_t.zero, y := float32_t.zero, z := float32_t.zero,
              yaw := float32_t.zero, xFeedforward := float32_t.zero,
              yFeedforward := float32_t.zero, advFlag := 0x01 })
          H.sizeofAdvancedCtrlData)] := by
  have h : (Control.emergencyBrake E H v).calls =
      v.calls ++
        [Call.send (controlSend H
          (Payload.advancedCtrlData
            { flag := 72, x := float32_t.zero, y := float32_t.zero, z := float32_t.zero,
              yaw := float32_t.zero, xFeedforward := float32_t.zero,
              yFeedforward := float32_t.zero, advFlag := 0x01 })
          H.sizeofAdvancedCtrlData)] := by
    simp [Control.emergencyBrake, Control.flightCtrl_adv, Vehicle.send, AdvancedCtrlData.ctor,
      controlSend]
  refine ⟨h, ?_⟩
  rw [h]
  simp [controlSend]

/-- C9: for all channel values the three remaining modes send these basic
frames (flag, x, y, z, yaw): `velocityAndYawRateCtrl(Vx, Vy, Vz, yawRate)` gives
(`VERTICAL_VELOCITY | HORIZONTAL_VELOCITY | YAW_RATE | HORIZONTAL_GROUND`, Vx,
Vy, Vz, yawRate); `attitudeAndVertPosCtrl(roll, pitch, yaw, z)` gives
(`VERTICAL_POSITION | HORIZONTAL_ANGLE | YAW_ANGLE | HORIZONTAL_BODY`, roll,
pitch, z, yaw); `angularRateAndVertPosCtrl(rollRate, pitchRate, yawRate, z)`
gives (`VERTICAL_POSITION | HORIZONTAL_ANGULAR_RATE | YAW_RATE |
HORIZONTAL_BODY`, rollRate, pitchRate, z, yawRate), each flag stored in a
`uint8_t`.  In the two body-frame modes the third and fourth arguments are
swapped.  For the enumerator values of the OSDK header the flags are 72, 18 and
218. -/
theorem remaining_modes_frames {σ : Type} (E : Collaborators σ) (H : Header)
    (a b c d : float32_t) (v : Vehicle σ) :
    (Control.velocityAndYawRateCtrl E H a b c d v).calls =
      v.calls ++
        [Call.send (controlSend H
          (Payload.ctrlData
            { flag := (H.VERTICAL_VELOCITY ||| H.HORIZONTAL_VELOCITY ||| H.YAW_RATE |||
                H.HORIZONTAL_GROUND) % 256,
              x := a, y := b, z := c, yaw := d })
          H.sizeofCtrlData)] ∧
    (Control.attitudeAndVertPosCtrl E H a b c d v).calls =
      v.calls ++
        [Call.send (controlSend H
          (Payload.ctrlData
            { flag := (H.VERTICAL_POSITION ||| H.HORIZONTAL_ANGLE ||| H.YAW_ANGLE |||
                H.HORIZONTAL_BODY) % 256,
              x := a, y := b, z := d, yaw := c })
          H.sizeofCtrlData)] ∧
    (Control.angularRateAndVertPosCtrl E H a b c d v).calls =
      v.calls ++
        [Call.send (controlSend H
          (Payload.ctrlData
            { flag := (H.VERTICAL_POSITION ||| H.HORIZONTAL_ANGULAR_RATE ||| H.YAW_RATE |||
                H.HORIZONTAL_BODY) % 256,
              x := a, y := b, z := d, yaw := c })
          H.sizeofCtrlData)] ∧
    (osdkHeader.VERTICAL_VELOCITY ||| osdkHeader.HORIZONTAL_VELOCITY ||| osdkHeader.YAW_RATE |||
      osdkHeader.HORIZONTAL_GROUND) % 256 = 72 ∧
    (osdkHeader.VERTICAL_POSITION ||| osdkHeader.HORIZONTAL_ANGLE ||| osdkHeader.YAW_ANGLE |||
      osdkHeader.HORIZONTAL_BODY) % 256 = 18 ∧
    (osdkHeader.VERTICAL_POSITION ||| osdkHeader.HORIZONTAL_ANGULAR_RATE |||
      osdkHeader.YAW_RATE ||| osdkHeader.HORIZONTAL_BODY) % 256 = 218 ∧
    (∀ p q r s : Nat, p < 256 → q < 256 → r < 256 → s < 256 →
      (p ||| q ||| r ||| s) % 256 = p ||| q ||| r ||| s) := by
  refine ⟨?_, ?_, ?_, by decide, by decide, by decide, ?_⟩
  · simp [Control.velocityAndYawRateCtrl, Control.flightCtrl, Vehicle.send, CtrlData.ctor,
      controlSend]
  · simp [Control.attitudeAndVertPosCtrl, Control.flightCtrl, Vehicle.send, CtrlData.ctor,
      controlSend]
  · simp [Control.angularRateAndVertPosCtrl, Control.flightCtrl, Vehicle.send, CtrlData.ctor,
      controlSend]
  · intro p q r s hp hq hr hs
    exact Nat.mod_eq_of_lt (or_lt_256 _ _ (or_lt_256 _ _ (or_lt_256 _ _ hp hq) hr) hs)

/-- Witness for C9: with the OSDK enumerator values and the inputs 1, 2, 3, 4 (as
binary32 patterns), `attitudeAndVertPosCtrl` sends flag 18 with the fields
1, 2, 4, 3, and the stored flag of `angularRateAndVertPosCtrl` is the OR of its
four enumerators. -/
theorem remaining_modes_frames_witness :
    (Control.attitudeAndVertPosCtrl sampleCollaborators osdkHeader ⟨0x3F800000⟩ ⟨0x40000000⟩
        ⟨0x40400000⟩ ⟨0x40800000⟩ sampleVehicle).calls =
      [Call.send
        { session := 0, encrypt := 0, cmd := CMDSet.control,
          data := Payload.ctrlData
            { flag := 18, x := ⟨0x3F800000⟩, y := ⟨0x40000000⟩, z := ⟨0x40800000⟩,
              yaw := ⟨0x40400000⟩ },
          len := 17, timeout := 500, retry := 2, isAsync := false, cbIndex := 1 }] ∧
    (0x10 ||| 0xC0 ||| 0x08 ||| 0x02) % 256 = 0x10 ||| 0xC0 ||| 0x08 ||| 0x02 :=
  ⟨(remaining_modes_frames sampleCollaborators osdkHeader ⟨0x3F800000⟩ ⟨0x40000000⟩
      ⟨0x40400000⟩ ⟨0x40800000⟩ sampleVehicle).2.1,
    (remaining_modes_frames sampleCollaborators osdkHeader ⟨0x3F800000⟩ ⟨0x40000000⟩
      ⟨0x40400000⟩ ⟨0x40800000⟩ sampleVehicle).2.2.2.2.2.2
      0x10 0xC0 0x08 0x02 (by decide) (by decide) (by decide) (by decide)⟩

/-! ## The default acknowledgment handler -/

/-- C5, counterexample: with `PackageMin` 16, a frame of length 17, which is not
`PackageMin + 2`, is decoded by the handler: the acknowledgment is built from it
and no "ACK is exception" diagnostic is emitted. -/
theorem actionCallback_decodes_shorter_frame :
    (17 : Nat) ≠ osdkHeader.PackageMin + 2 ∧
    Control.actionCallback osdkHeader (fun ack => decide (ack.data ≠ 0))
        { recvInfo := { len := 17, seqNumber := 3 }, recvData := { ack := 0 } } UserData.NULL =
      { ack := some { info := { len := 17, seqNumber := 3 }, data := 0 }, log := [] } := by
  decide

/-- C5, amended: for every inbound frame (with `PackageMin + 2` and the length
representable in the comparison word) the handler decodes the error code
exactly when `PackageMin ≤ len ≤ PackageMin + 2`, and it takes the diagnostic
branch ("ACK is exception", with the sequence number, nothing decoded) exactly
when the length is outside that range. -/
theorem actionCallback_branches (H : Header) (getError : ErrorCode → Bool)
    (recvFrame : RecvContainer) (userData : UserData)
    (hP : H.PackageMin + 2 < 2 ^ H.wordBits) (hl : recvFrame.recvInfo.len < 2 ^ H.wordBits) :
    (Decoded getError recvFrame (Control.actionCallback H getError recvFrame userData) ↔
      H.PackageMin ≤ recvFrame.recvInfo.len ∧ recvFrame.recvInfo.len ≤ H.PackageMin + 2) ∧
    (Excepted recvFrame (Control.actionCallback H getError recvFrame userData) ↔
      recvFrame.recvInfo.len < H.PackageMin ∨ H.PackageMin + 2 < recvFrame.recvInfo.len) := by
  have hiff := lengthTest_iff H recvFrame.recvInfo.len hP hl
  cases ht : Control.lengthTest H recvFrame.recvInfo.len with
  | true =>
    have hd := actionCallback_of_test H getError recvFrame userData ht
    have hw := hiff.mp ht
    refine ⟨⟨fun _ => hw, fun _ => hd⟩, ⟨fun he => ?_, fun ho => ?_⟩⟩
    · have h1 := hd.1
      rw [he.1] at h1
      exact Option.noConfusion h1
    · omega
  | false =>
    have he := actionCallback_of_not_test H getError recvFrame userData ht
    have hn : ¬ (H.PackageMin ≤ recvFrame.recvInfo.len ∧
        recvFrame.recvInfo.len ≤ H.PackageMin + 2) := by
      intro hw
      rw [hiff.mpr hw] at ht
      exact Bool.noConfusion ht
    refine ⟨⟨fun hd => ?_, fun hw => absurd hw hn⟩, ⟨fun _ => by omega, fun _ => he⟩⟩
    have h1 := hd.1
    rw [he.1] at h1
    exact Option.noConfusion h1

/-- Witness for C5 amended: with `PackageMin` 16 and a 64-bit comparison, a frame
of length 18 is decoded and a frame of length 19 is reported as an exception. -/
theorem actionCallback_branches_witness :
    Decoded (fun ack => decide (ack.data ≠ 0))
      { recvInfo := { len := 18, seqNumber := 3 }, recvData := { ack := 1 } }
      (Control.actionCallback osdkHeader (fun ack => decide (ack.data ≠ 0))
        { recvInfo := { len := 18, seqNumber := 3 }, recvData := { ack := 1 } } UserData.NULL) ∧
    Excepted { recvInfo := { len := 19, seqNumber := 4 }, recvData := { ack := 1 } }
      (Control.actionCallback osdkHeader (fun ack => decide (ack.data ≠ 0))
        { recvInfo := { len := 19, seqNumber := 4 }, recvData := { ack := 1 } } UserData.NULL) :=
  ⟨(actionCallback_branches osdkHeader (fun ack => decide (ack.data ≠ 0))
      { recvInfo := { len := 18, seqNumber := 3 }, recvData := { ack := 1 } } UserData.NULL
      (by decide) (by decide)).1.mpr (by decide),
    (actionCallback_branches osdkHeader (fun ack => decide (ack.data ≠ 0))
      { recvInfo := { len := 19, seqNumber := 4 }, recvData := { ack := 1 } } UserData.NULL
      (by decide) (by decide)).2.mpr (by decide)⟩

/-- C10: with the difference `len - PackageMin` compared as an unsigned word of
`wordBits` bits (a negative difference wraps modulo `2 ^ wordBits`), the length
test holds, and the handler takes the decode branch, if and only if
`PackageMin ≤ len ≤ PackageMin + 2`; the handler takes the diagnostic branch if
and only if the length is outside that window, in particular for every frame
shorter than `PackageMin`; and for every frame exactly one of the two branches
is taken. -/
theorem lengthTest_unsigned_window (H : Header) (getError : ErrorCode → Bool)
    (recvFrame : RecvContainer) (userData : UserData)
    (hP : H.PackageMin + 2 < 2 ^ H.wordBits) (hl : recvFrame.recvInfo.len < 2 ^ H.wordBits) :
    (Control.lengthTest H recvFrame.recvInfo.len = true ↔
      H.PackageMin ≤ recvFrame.recvInfo.len ∧ recvFrame.recvInfo.len ≤ H.PackageMin + 2) ∧
    (Decoded getError recvFrame (Control.actionCallback H getError recvFrame userData) ↔
      H.PackageMin ≤ recvFrame.recvInfo.len ∧ recvFrame.recvInfo.len ≤ H.PackageMin + 2) ∧
    (Excepted recvFrame (Control.actionCallback H getError recvFrame userData) ↔
      ¬ (H.PackageMin ≤ recvFrame.recvInfo.len ∧
        recvFrame.recvInfo.len ≤ H.PackageMin + 2)) ∧
    (recvFrame.recvInfo.len < H.PackageMin →
      Control.lengthTest H recvFrame.recvInfo.len = false ∧
      Excepted recvFrame (Control.actionCallback H getError recvFrame userData) ∧
      ¬ Decoded getError recvFrame (Control.actionCallback H getError recvFrame userData)) ∧
    (Decoded getError recvFrame (Control.actionCallback H getError recvFrame userData) ∨
      Excepted recvFrame (Control.actionCallback H getError recvFrame userData)) ∧
    ¬ (Decoded getError recvFrame (Control.actionCallback H getError recvFrame userData) ∧
      Excepted recvFrame (Control.actionCallback H getError recvFrame userData)) := by
  have hiff := lengthTest_iff H recvFrame.recvInfo.len hP hl
  have hex := decoded_not_excepted getError recvFrame
    (Control.actionCallback H getError recvFrame userData)
  cases ht : Control.lengthTest H recvFrame.recvInfo.len with
  | true =>
    have hd := actionCallback_of_test H getError recvFrame userData ht
    have hw := hiff.mp ht
    rw [ht] at hiff
    refine ⟨hiff, ⟨fun _ => hw, fun _ => hd⟩, ⟨fun he => absurd he (hex hd), fun hn => absurd hw hn⟩,
      fun hs => ?_, Or.inl hd, fun hb => hex hb.1 hb.2⟩
    omega
  | false =>
    have he := actionCallback_of_not_test H getError recvFrame userData ht
    have hn : ¬ (H.PackageMin ≤ recvFrame.recvInfo.len ∧
        recvFrame.recvInfo.len ≤ H.PackageMin + 2) := by
      intro hw
      rw [hiff.mpr hw] at ht
      exact Bool.noConfusion ht
    rw [ht] at hiff
    refine ⟨hiff, ⟨fun hd => absurd he (hex hd), fun hw => absurd hw hn⟩,
      ⟨fun _ => hn, fun _ => he⟩, fun _ => ⟨rfl, he, fun hd => hex hd he⟩, Or.inr he,
      fun hb => hex hb.1 hb.2⟩

/-- Witness for C10: with `PackageMin` 16 and a 64-bit comparison, a frame of
length 10 fails the length test (the difference wraps to `2 ^ 64 - 6`), is
reported as an exception and is not decoded, while a frame of length 16 is
decoded. -/
theorem lengthTest_unsigned_window_witness :
    (Control.lengthTest osdkHeader 10 = false ∧
      Excepted { recvInfo := { len := 10, seqNumber := 9 }, recvData := { ack := 0 } }
        (Control.actionCallback osdkHeader (fun _ => true)
          { recvInfo := { len := 10, seqNumber := 9 }, recvData := { ack := 0 } }
          UserData.NULL) ∧
      ¬ Decoded (fun _ => true)
        { recvInfo := { len := 10, seqNumber := 9 }, recvData := { ack := 0 } }
        (Control.actionCallback osdkHeader (fun _ => true)
          { recvInfo := { len := 10, seqNumber := 9 }, recvData := { ack := 0 } }
          UserData.NULL)) ∧
    Decoded (fun _ => true)
      { recvInfo := { len := 16, seqNumber := 9 }, recvData := { ack := 0 } }
      (Control.actionCallback osdkHeader (fun _ => true)
        { recvInfo := { len := 16, seqNumber := 9 }, recvData := { ack := 0 } } UserData.NULL) :=
  ⟨(lengthTest_unsigned_window osdkHeader (fun _ => true)
      { recvInfo := { len := 10, seqNumber := 9 }, recvData := { ack := 0 } } UserData.NULL
      (by decide) (by decide)).2.2.2.1 (by decide),
    (lengthTest_unsigned_window osdkHeader (fun _ => true)
      { recvInfo := { len := 16, seqNumber := 9 }, recvData := { ack := 0 } } UserData.NULL
      (by decide) (by decide)).2.1.mpr (by decide)⟩

end DJI.OSDK
